import Mathlib

/-!
Shallow embedding of the client-side session-state engine of the
Vision-RAG frontend (the Redux slice `generalSlicer` together with the
`handleSendMessage` entry point of the chat area component), and proofs
of the specification claims about it.

The reducer cases are translated one-for-one from the `createSlice`
reducers and `extraReducers` of `src/frontend/app/page.jsx`; the send
entry point is translated from `handleSendMessage` in the chat-area
component.  Asynchronous thunks appear as lifecycle actions (`pending`,
`fulfilled`, `rejected`) carrying the payload the thunk would deliver;
`Date.now()` appears as an explicit natural-number timestamp argument.
-/

namespace VisionRAG

/-- A conversation record as held in `state.conversations`.  The record
returned by `POST /qa/chat/new` carries a `conversation_id` field (read
by the `createNewChat.fulfilled` reducer), while the delete reducer
filters on the `id` field; both fields are kept. -/
structure Conversation where
  id : String
  conversation_id : String
  title : String
deriving DecidableEq, Repr

/-- A chat message as held in `state.messages`.  Roles are the literal
strings `"user"` / `"assistant"` used by the code. -/
structure Message where
  role : String
  content : String
  id : String
deriving DecidableEq, Repr

/-- One record of the transcript returned by
`GET /qa/conversations/{id}/history` (`{role, text, id}`). -/
structure HistoryRecord where
  role : String
  text : String
  id : String
deriving DecidableEq, Repr

/-- One topic-search candidate (`{title, url}`). -/
structure TopicResult where
  title : String
  url : String
deriving DecidableEq, Repr

/-- The value stored in `state.error` by a rejected thunk.  Every thunk
computes it as `error.response?.data || error.message`: the backend's
structured payload when the response carried one, else the transport
error text. -/
inductive ErrorPayload where
  | structured (data : String)
  | transport (msg : String)
deriving DecidableEq, Repr

/-- `error.response?.data || error.message`: the structured backend
payload when present, else the transport error message. -/
def mkRejectPayload (data? : Option String) (msg : String) : ErrorPayload :=
  match data? with
  | some d => ErrorPayload.structured d
  | none => ErrorPayload.transport msg

/-- The slice state (`initialState` shape of `generalSlicer`). -/
structure SessionState where
  conversations : List Conversation
  currentConversationId : Option String
  messages : List Message
  documents : List String
  selectedDocuments : List String
  topicSearchResults : List TopicResult
  isLoading : Bool
  isSending : Bool
  isUploading : Bool
  isSearching : Bool
  error : Option ErrorPayload
deriving DecidableEq, Repr

/-- The `initialState` object of the slice. -/
def initialState : SessionState :=
  { conversations := []
    currentConversationId := none
    messages := []
    documents := []
    selectedDocuments := []
    topicSearchResults := []
    isLoading := false
    isSending := false
    isUploading := false
    isSearching := false
    error := none }

/-- Every action the slice reducer handles: the synchronous reducers of
the `reducers` block and the lifecycle events of the `extraReducers`
block.  Fulfilled/rejected constructors carry the delivered payload;
`sendMessageFulfilled` additionally carries the `Date.now()` value read
when building the assistant message id. -/
inductive Action where
  | setCurrentConversationId (id : Option String)
  | toggleSelectedDocument (doc : String)
  | clearSelectedDocuments
  | setSelectedDocuments (docs : List String)
  | clearTopicSearchResults
  | clearError
  | clearMessages
  | addLocalMessage (m : Message)
  | createNewChatPending
  | createNewChatFulfilled (payload : Conversation)
  | createNewChatRejected (payload : ErrorPayload)
  | fetchConversationsPending
  | fetchConversationsFulfilled (payload : List Conversation)
  | fetchConversationsRejected (payload : ErrorPayload)
  | deleteConversationPending
  | deleteConversationFulfilled (conversationId : String)
  | deleteConversationRejected (payload : ErrorPayload)
  | fetchConversationHistoryPending
  | fetchConversationHistoryFulfilled (records : List HistoryRecord)
  | fetchConversationHistoryRejected (payload : ErrorPayload)
  | uploadFilePending
  | uploadFileFulfilled (document_names : List String)
  | uploadFileRejected (payload : ErrorPayload)
  | ingestUrlPending
  | ingestUrlFulfilled
  | ingestUrlRejected (payload : ErrorPayload)
  | searchTopicPending
  | searchTopicFulfilled (results : Option (List TopicResult))
  | searchTopicRejected (payload : ErrorPayload)
  | ingestTopicPending
  | ingestTopicFulfilled
  | ingestTopicRejected (payload : ErrorPayload)
  | fetchDocumentsPending
  | fetchDocumentsFulfilled (docs : List String)
  | fetchDocumentsRejected (payload : ErrorPayload)
  | sendMessagePending
  | sendMessageFulfilled (response : String) (now : Nat)
  | sendMessageRejected (payload : ErrorPayload)
  | submitFeedbackPending
  | submitFeedbackFulfilled
  | submitFeedbackRejected (payload : ErrorPayload)
deriving DecidableEq, Repr

/-- `Array.from(new Set(xs))`: deduplication keeping the first
occurrence of each element, in order. -/
def jsSetDedup : List String → List String
  | [] => []
  | x :: xs => x :: jsSetDedup (xs.filter (fun y => y ≠ x))
termination_by l => l.length
decreasing_by
  simp only [List.length_cons]
  exact Nat.lt_succ_of_le (List.length_filter_le _ _)

/-- The `toggleSelectedDocument` reducer body on the selected-documents
list: `indexOf` + `splice` removes the first occurrence when present,
else `push` appends. -/
def toggleDoc (l : List String) (docName : String) : List String :=
  if docName ∈ l then l.erase docName else l ++ [docName]

/-- The decimal rendering of a natural number, as JavaScript string
interpolation produces for `Date.now()`: its base-10 digits,
most-significant first (and `"0"` for zero). -/
def jsNatDigits (n : Nat) : List Nat :=
  if n = 0 then [0] else (Nat.digits 10 n).reverse

/-- The character for one decimal digit value. -/
def jsDigitChar : Nat → Char
  | 0 => '0' | 1 => '1' | 2 => '2' | 3 => '3' | 4 => '4'
  | 5 => '5' | 6 => '6' | 7 => '7' | 8 => '8' | _ => '9'

/-- JavaScript `${n}` for a (non-negative) number `n`: its decimal
digit string. -/
def jsNatRepr (n : Nat) : String :=
  ⟨(jsNatDigits n).map jsDigitChar⟩

/-- The slice reducer: one case per handled action, translated from the
`reducers` and `extraReducers` blocks of `generalSlicer`. -/
def generalReducer (s : SessionState) : Action → SessionState
  | .setCurrentConversationId id => { s with currentConversationId := id }
  | .toggleSelectedDocument doc =>
      { s with selectedDocuments := toggleDoc s.selectedDocuments doc }
  | .clearSelectedDocuments => { s with selectedDocuments := [] }
  | .setSelectedDocuments docs =>
      { s with selectedDocuments := jsSetDedup docs }
  | .clearTopicSearchResults => { s with topicSearchResults := [] }
  | .clearError => { s with error := none }
  | .clearMessages => { s with messages := [] }
  | .addLocalMessage m => { s with messages := s.messages ++ [m] }
  | .createNewChatPending => { s with isLoading := true, error := none }
  | .createNewChatFulfilled payload =>
      { s with isLoading := false
               conversations := s.conversations ++ [payload]
               currentConversationId := some payload.conversation_id
               messages := []
               documents := []
               selectedDocuments := [] }
  | .createNewChatRejected payload =>
      { s with isLoading := false, error := some payload }
  | .fetchConversationsPending => { s with isLoading := true }
  | .fetchConversationsFulfilled payload =>
      { s with isLoading := false, conversations := payload }
  | .fetchConversationsRejected payload =>
      { s with isLoading := false, error := some payload }
  | .deleteConversationPending => { s with isLoading := true }
  | .deleteConversationFulfilled conversationId =>
      let s' := { s with isLoading := false
                         conversations :=
                           s.conversations.filter
                             (fun c => c.id ≠ conversationId) }
      if s.currentConversationId = some conversationId then
        { s' with currentConversationId := none
                  messages := []
                  documents := []
                  selectedDocuments := [] }
      else s'
  | .deleteConversationRejected payload =>
      { s with isLoading := false, error := some payload }
  | .fetchConversationHistoryPending => { s with isLoading := true }
  | .fetchConversationHistoryFulfilled records =>
      { s with isLoading := false
               messages := records.map (fun m =>
                 { role := if m.role = "human" then "user" else "assistant"
                   content := m.text
                   id := m.id }) }
  | .fetchConversationHistoryRejected payload =>
      { s with isLoading := false, error := some payload }
  | .uploadFilePending => { s with isUploading := true, error := none }
  | .uploadFileFulfilled document_names =>
      { s with isUploading := false, documents := document_names }
  | .uploadFileRejected payload =>
      { s with isUploading := false, error := some payload }
  | .ingestUrlPending => { s with isLoading := true, error := none }
  | .ingestUrlFulfilled => { s with isLoading := false }
  | .ingestUrlRejected payload =>
      { s with isLoading := false, error := some payload }
  | .searchTopicPending => { s with isSearching := true, error := none }
  | .searchTopicFulfilled results =>
      { s with isSearching := false
               topicSearchResults := results.getD [] }
  | .searchTopicRejected payload =>
      { s with isSearching := false, error := some payload }
  | .ingestTopicPending => { s with isLoading := true, error := none }
  | .ingestTopicFulfilled =>
      { s with isLoading := false, topicSearchResults := [] }
  | .ingestTopicRejected payload =>
      { s with isLoading := false, error := some payload }
  | .fetchDocumentsPending => { s with isLoading := true }
  | .fetchDocumentsFulfilled docs =>
      { s with isLoading := false, documents := docs }
  | .fetchDocumentsRejected payload =>
      { s with isLoading := false, error := some payload }
  | .sendMessagePending => { s with isSending := true, error := none }
  | .sendMessageFulfilled response now =>
      if response ≠ "" then
        { s with isSending := false
                 messages := s.messages ++
                   [{ role := "assistant"
                      content := response
                      id := "ai_" ++ jsNatRepr now }] }
      else { s with isSending := false }
  | .sendMessageRejected payload =>
      { s with isSending := false, error := some payload }
  | .submitFeedbackPending => { s with isLoading := true }
  | .submitFeedbackFulfilled => { s with isLoading := false }
  | .submitFeedbackRejected payload =>
      { s with isLoading := false, error := some payload }

/-- JavaScript `String.prototype.trim()`: strips leading and trailing
whitespace. -/
def jsTrim (s : String) : String :=
  ⟨((s.data.dropWhile Char.isWhitespace).reverse.dropWhile
      Char.isWhitespace).reverse⟩

/-- The payload handed to the `sendMessage` thunk (and hence the
request that reaches the Backend Gateway). -/
structure SendRequest where
  conversationId : String
  userQuery : String
  selectedDocuments : List String
deriving DecidableEq, Repr

/-- `handleSendMessage` of the chat-area component: if the trimmed
query is empty, no conversation is current (JavaScript falsiness of
`currentConversationId` covers both `null` and `""`), or no document is
selected, it returns without dispatching.  Otherwise it dispatches
`addLocalMessage` with an optimistic user message whose id is
`user_${Date.now()}` and then dispatches the `sendMessage` thunk (whose
`pending` event fires at dispatch).  Returns the state after the local
dispatches together with the request sent, if any. -/
def handleSendMessage (userQuery : String) (now : Nat) (s : SessionState) :
    SessionState × Option SendRequest :=
  match s.currentConversationId with
  | none => (s, none)
  | some cid =>
      if jsTrim userQuery = "" ∨ cid = "" ∨ s.selectedDocuments = [] then
        (s, none)
      else
        let userMessage : Message :=
          { role := "user"
            content := userQuery
            id := "user_" ++ jsNatRepr now }
        (generalReducer (generalReducer s (.addLocalMessage userMessage))
           .sendMessagePending,
         some { conversationId := cid
                userQuery := userQuery
                selectedDocuments := s.selectedDocuments })

/-! ### Helper lemmas -/

/-- On a valid send, `handleSendMessage` appends the optimistic user
message, marks sending, clears the error slot and emits the request. -/
theorem handleSendMessage_valid_eq (s : SessionState) (cid q : String)
    (now : Nat) (hc : s.currentConversationId = some cid) (hcid : cid ≠ "")
    (hq : jsTrim q ≠ "") (hsel : s.selectedDocuments ≠ []) :
    handleSendMessage q now s =
      ({ s with
           messages := s.messages ++
             [{ role := "user", content := q, id := "user_" ++ jsNatRepr now }]
           isSending := true
           error := none },
       some { conversationId := cid, userQuery := q,
              selectedDocuments := s.selectedDocuments }) := by
  have hcond : ¬(jsTrim q = "" ∨ cid = "" ∨ s.selectedDocuments = []) := by
    push_neg
    exact ⟨hq, hcid, hsel⟩
  simp only [handleSendMessage, hc]
  rw [if_neg hcond]
  simp [generalReducer, hc]

/-- The inverse digit table for `jsDigitChar`. -/
def jsDigitVal : Char → Nat
  | '0' => 0 | '1' => 1 | '2' => 2 | '3' => 3 | '4' => 4
  | '5' => 5 | '6' => 6 | '7' => 7 | '8' => 8 | '9' => 9
  | _ => 10

theorem jsDigitVal_jsDigitChar {d : Nat} (h : d < 10) :
    jsDigitVal (jsDigitChar d) = d := by
  interval_cases d <;> rfl

theorem map_jsDigitChar_inj {l l' : List Nat}
    (h : ∀ d ∈ l, d < 10) (h' : ∀ d ∈ l', d < 10)
    (heq : l.map jsDigitChar = l'.map jsDigitChar) : l = l' := by
  have cancel : ∀ (m : List Nat), (∀ d ∈ m, d < 10) →
      m.map (jsDigitVal ∘ jsDigitChar) = m := by
    intro m hm
    have : m.map (jsDigitVal ∘ jsDigitChar) = m.map id :=
      List.map_congr_left (fun d hd => jsDigitVal_jsDigitChar (hm d hd))
    rw [this, List.map_id]
  have h2 := congrArg (List.map jsDigitVal) heq
  rw [List.map_map, List.map_map, cancel l h, cancel l' h'] at h2
  exact h2

theorem jsNatDigits_lt (n : Nat) : ∀ d ∈ jsNatDigits n, d < 10 := by
  intro d hd
  unfold jsNatDigits at hd
  split at hd
  · simp at hd
    omega
  · rw [List.mem_reverse] at hd
    exact Nat.digits_lt_base (by norm_num) hd

theorem jsNatDigits_inj {m n : Nat} (h : jsNatDigits m = jsNatDigits n) :
    m = n := by
  unfold jsNatDigits at h
  by_cases hm : m = 0 <;> by_cases hn : n = 0
  · exact hm.trans hn.symm
  · rw [if_pos hm, if_neg hn] at h
    have hdig : Nat.digits 10 n = [0] := by
      have := congrArg List.reverse h
      simpa using this.symm
    have hn0 : n = 0 := by
      calc n = Nat.ofDigits 10 (Nat.digits 10 n) :=
            (Nat.ofDigits_digits 10 n).symm
        _ = Nat.ofDigits 10 [0] := by rw [hdig]
        _ = 0 := by simp [Nat.ofDigits]
    exact absurd hn0 hn
  · rw [if_neg hm, if_pos hn] at h
    have hdig : Nat.digits 10 m = [0] := by
      have := congrArg List.reverse h
      simpa using this
    have hm0 : m = 0 := by
      calc m = Nat.ofDigits 10 (Nat.digits 10 m) :=
            (Nat.ofDigits_digits 10 m).symm
        _ = Nat.ofDigits 10 [0] := by rw [hdig]
        _ = 0 := by simp [Nat.ofDigits]
    exact absurd hm0 hm
  · rw [if_neg hm, if_neg hn] at h
    exact Nat.digits_inj_iff.mp (List.reverse_injective h)

theorem jsNatRepr_data_inj {m n : Nat}
    (h : (jsNatRepr m).data = (jsNatRepr n).data) : m = n := by
  unfold jsNatRepr at h
  exact jsNatDigits_inj
    (map_jsDigitChar_inj (jsNatDigits_lt m) (jsNatDigits_lt n) h)

/-- Two optimistic-message ids built from distinct timestamps
differ. -/
theorem userId_inj {t t' : Nat}
    (h : "user_" ++ jsNatRepr t = "user_" ++ jsNatRepr t') : t = t' := by
  have hd := congrArg String.data h
  rw [String.data_append, String.data_append] at hd
  exact jsNatRepr_data_inj (List.append_cancel_left hd)

/-! ### Sample data used by witnesses -/

/-- A sample conversation record. -/
def convA : Conversation := { id := "c1", conversation_id := "c1", title := "A" }

/-- A second sample conversation record. -/
def convB : Conversation := { id := "c2", conversation_id := "c2", title := "B" }

/-- A sample user message. -/
def msgU : Message := { role := "user", content := "hi", id := "m1" }

/-- A sample populated state with conversation `c1` current. -/
def sampleState : SessionState :=
  { initialState with
      conversations := [convA, convB]
      currentConversationId := some "c1"
      messages := [msgU]
      documents := ["doc1", "doc2"]
      selectedDocuments := ["doc1"] }

/-! ### Claims -/

/-- C1: reducing a fulfilled `fetchConversationHistory` (loadHistory)
event replaces `messages` wholesale with the mapped transcript — role
token `"human"` maps to `user`, any other role to `assistant`, content
taken from the record's `text`, id preserved, in record order — leaving
every other field except `isLoading` unchanged; and the resulting
`messages` are the same whatever the pre-state (in particular whatever
`currentConversationId` was), i.e. there is no fencing by conversation
id. -/
theorem loadHistory_replaces_messages_unconditionally
    (s t : SessionState) (records : List HistoryRecord) :
    generalReducer s (.fetchConversationHistoryFulfilled records) =
      { s with isLoading := false
               messages := records.map (fun m =>
                 { role := if m.role = "human" then "user" else "assistant"
                   content := m.text
                   id := m.id }) } ∧
    (generalReducer s (.fetchConversationHistoryFulfilled records)).messages =
      (generalReducer t (.fetchConversationHistoryFulfilled records)).messages :=
  ⟨rfl, rfl⟩

/-- C2: reducing a fulfilled `createNewChat` (createConversation) event
appends the returned conversation record to `conversations`, sets
`currentConversationId` to the new conversation's id, and empties
`messages`, `documents` and `selectedDocuments` (also clearing the
loading flag), for every pre-state. -/
theorem createConversation_fulfilled_spec
    (s : SessionState) (payload : Conversation) :
    generalReducer s (.createNewChatFulfilled payload) =
      { s with isLoading := false
               conversations := s.conversations ++ [payload]
               currentConversationId := some payload.conversation_id
               messages := []
               documents := []
               selectedDocuments := [] } :=
  rfl

/-- C3: reducing a fulfilled `deleteConversation cid` event removes the
conversation whose `id` matches from `conversations`; when `cid` is the
current conversation it also resets `currentConversationId` to `none`
and empties `messages`, `documents` and `selectedDocuments`; when `cid`
differs from the current conversation those four fields are left
unchanged. -/
theorem deleteConversation_fulfilled_spec (s : SessionState) (cid : String) :
    (generalReducer s (.deleteConversationFulfilled cid)).conversations =
      s.conversations.filter (fun c => c.id ≠ cid) ∧
    (s.currentConversationId = some cid →
      (generalReducer s (.deleteConversationFulfilled cid)).currentConversationId = none ∧
      (generalReducer s (.deleteConversationFulfilled cid)).messages = [] ∧
      (generalReducer s (.deleteConversationFulfilled cid)).documents = [] ∧
      (generalReducer s (.deleteConversationFulfilled cid)).selectedDocuments = []) ∧
    (s.currentConversationId ≠ some cid →
      (generalReducer s (.deleteConversationFulfilled cid)).currentConversationId =
        s.currentConversationId ∧
      (generalReducer s (.deleteConversationFulfilled cid)).messages = s.messages ∧
      (generalReducer s (.deleteConversationFulfilled cid)).documents = s.documents ∧
      (generalReducer s (.deleteConversationFulfilled cid)).selectedDocuments =
        s.selectedDocuments) := by
  by_cases h : s.currentConversationId = some cid <;>
    simp [generalReducer, h]

/-- Witness for C3 at a concrete state: deleting non-current `c2`
removes it from the list and leaves the scoped collections and current
id untouched. -/
theorem deleteConversation_fulfilled_spec_witness :
    (generalReducer sampleState (.deleteConversationFulfilled "c2")).conversations =
      [convA] ∧
    (generalReducer sampleState (.deleteConversationFulfilled "c2")).currentConversationId =
      some "c1" ∧
    (generalReducer sampleState (.deleteConversationFulfilled "c2")).messages =
      sampleState.messages := by
  have h := deleteConversation_fulfilled_spec sampleState "c2"
  refine ⟨?_, (h.2.2 (by decide)).1, (h.2.2 (by decide)).2.1⟩
  rw [h.1]
  decide

/-- C4: when no conversation is current (or the current id is the
falsy empty string), or no document is selected, or the query is empty
after trimming, `handleSendMessage` is a client-side no-op: the state
is returned untouched (no message appended, no error set) and no
request is produced for the Backend Gateway. -/
theorem send_gate_noop (s : SessionState) (q : String) (now : Nat)
    (h : s.currentConversationId = none ∨ s.selectedDocuments = [] ∨
      jsTrim q = "") :
    handleSendMessage q now s = (s, none) := by
  match hc : s.currentConversationId with
  | none => simp [handleSendMessage, hc]
  | some cid =>
      rcases h with h | h | h
      · rw [hc] at h
        exact absurd h (by simp)
      · simp [handleSendMessage, hc, h]
      · simp [handleSendMessage, hc, h]

/-- Witness for C4: with no conversation selected, sending is a
no-op. -/
theorem send_gate_noop_witness :
    handleSendMessage "hello" 5 initialState = (initialState, none) :=
  send_gate_noop initialState "hello" 5 (Or.inl rfl)

/-- C5: for a valid send (current conversation set and non-falsy,
query non-empty after trimming, at least one document selected),
`handleSendMessage` appends the optimistic user message carrying the
query text before any network resolution and produces the request;
reducing a later fulfilled event appends an assistant message after it
exactly when the returned answer string is non-empty, removing or
replacing nothing; reducing a rejected event appends nothing, leaving
the optimistic user message in place. -/
theorem send_protocol_spec (s : SessionState) (cid q : String) (now : Nat)
    (hc : s.currentConversationId = some cid) (hcid : cid ≠ "")
    (hq : jsTrim q ≠ "") (hsel : s.selectedDocuments ≠ []) :
    handleSendMessage q now s =
      ({ s with
           messages := s.messages ++
             [{ role := "user", content := q, id := "user_" ++ jsNatRepr now }]
           isSending := true
           error := none },
       some { conversationId := cid, userQuery := q,
              selectedDocuments := s.selectedDocuments }) ∧
    (∀ (response : String) (now2 : Nat),
      (generalReducer (handleSendMessage q now s).1
          (.sendMessageFulfilled response now2)).messages =
        s.messages ++
          [{ role := "user", content := q, id := "user_" ++ jsNatRepr now }] ++
          (if response ≠ "" then
            [{ role := "assistant", content := response,
               id := "ai_" ++ jsNatRepr now2 }]
          else [])) ∧
    (∀ e : ErrorPayload,
      (generalReducer (handleSendMessage q now s).1
          (.sendMessageRejected e)).messages =
        s.messages ++
          [{ role := "user", content := q, id := "user_" ++ jsNatRepr now }]) := by
  have hmain := handleSendMessage_valid_eq s cid q now hc hcid hq hsel
  refine ⟨hmain, fun response now2 => ?_, fun e => ?_⟩
  · rw [hmain]
    by_cases hr : response = ""
    · subst hr
      simp [generalReducer]
    · simp [generalReducer, hr]
  · rw [hmain]
    rfl

/-- Witness for C5 at a concrete valid send: the optimistic user
message is appended, and a fulfilled event with answer `"X is Y"`
appends the assistant message after it. -/
theorem send_protocol_spec_witness :
    (handleSendMessage "What is X?" 7 sampleState).1.messages =
      sampleState.messages ++
        [{ role := "user", content := "What is X?",
           id := "user_" ++ jsNatRepr 7 }] ∧
    (generalReducer (handleSendMessage "What is X?" 7 sampleState).1
        (.sendMessageFulfilled "X is Y" 9)).messages =
      sampleState.messages ++
        [{ role := "user", content := "What is X?",
           id := "user_" ++ jsNatRepr 7 }] ++
        [{ role := "assistant", content := "X is Y",
           id := "ai_" ++ jsNatRepr 9 }] := by
  have h := send_protocol_spec sampleState "c1" "What is X?" 7 rfl
    (by decide) (by decide) (by decide)
  constructor
  · rw [h.1]
  · rw [h.2.1 "X is Y" 9]
    simp

/-- C6 counterexample: two distinct valid sends (different query
texts, so different messages) issued while `Date.now()` reads the same
millisecond value 5 both dispatch a request, and both optimistic user
messages receive the very same identifier `user_5` — the
client-generated identifier is not unique within the session. -/
theorem send_id_collision :
    (handleSendMessage "q1" 5 sampleState).2.isSome = true ∧
    (handleSendMessage "q2" 5
        (handleSendMessage "q1" 5 sampleState).1).2.isSome = true ∧
    (handleSendMessage "q1" 5 sampleState).1.messages.getLast?.map
        Message.id = some ("user_" ++ jsNatRepr 5) ∧
    (handleSendMessage "q2" 5
          (handleSendMessage "q1" 5 sampleState).1).1.messages.getLast?.map
        Message.id = some ("user_" ++ jsNatRepr 5) :=
  ⟨rfl, rfl, rfl, rfl⟩

/-- C6 (amended): the client-generated identifier of an optimistic
user message is `user_` followed by the decimal `Date.now()` value, so
the identifiers of two valid sends are distinct whenever the sends
observe distinct timestamps; sends within the same millisecond share
one identifier. -/
theorem send_ids_distinct_for_distinct_times
    (s s' : SessionState) (cid cid' q q' : String) (t t' : Nat)
    (hc : s.currentConversationId = some cid) (hcid : cid ≠ "")
    (hq : jsTrim q ≠ "") (hsel : s.selectedDocuments ≠ [])
    (hc' : s'.currentConversationId = some cid') (hcid' : cid' ≠ "")
    (hq' : jsTrim q' ≠ "") (hsel' : s'.selectedDocuments ≠ [])
    (ht : t ≠ t') :
    (handleSendMessage q t s).1.messages.getLast?.map Message.id ≠
      (handleSendMessage q' t' s').1.messages.getLast?.map Message.id := by
  intro h
  rw [handleSendMessage_valid_eq s cid q t hc hcid hq hsel,
    handleSendMessage_valid_eq s' cid' q' t' hc' hcid' hq' hsel'] at h
  simp at h
  exact ht (userId_inj h)

/-- Witness for the amended C6: sends at timestamps 5 and 6 carry
distinct identifiers. -/
theorem send_ids_distinct_witness :
    (handleSendMessage "q1" 5 sampleState).1.messages.getLast?.map
        Message.id ≠
      (handleSendMessage "q2" 6 sampleState).1.messages.getLast?.map
        Message.id :=
  send_ids_distinct_for_distinct_times sampleState sampleState "c1" "c1"
    "q1" "q2" 5 6 rfl (by decide) (by decide) (by decide) rfl (by decide)
    (by decide) (by decide) (by decide)

/-- The eleven asynchronous operation families of the slice. -/
inductive OpFamily where
  | createNewChat
  | fetchConversations
  | deleteConversation
  | fetchConversationHistory
  | uploadFile
  | ingestUrl
  | searchTopic
  | ingestTopic
  | fetchDocuments
  | sendMessage
  | submitFeedback
deriving DecidableEq, Repr

/-- The rejected lifecycle event of each operation family, carrying the
payload the thunk's `rejectWithValue` delivered. -/
def rejectedEvent : OpFamily → ErrorPayload → Action
  | .createNewChat, e => .createNewChatRejected e
  | .fetchConversations, e => .fetchConversationsRejected e
  | .deleteConversation, e => .deleteConversationRejected e
  | .fetchConversationHistory, e => .fetchConversationHistoryRejected e
  | .uploadFile, e => .uploadFileRejected e
  | .ingestUrl, e => .ingestUrlRejected e
  | .searchTopic, e => .searchTopicRejected e
  | .ingestTopic, e => .ingestTopicRejected e
  | .fetchDocuments, e => .fetchDocumentsRejected e
  | .sendMessage, e => .sendMessageRejected e
  | .submitFeedback, e => .submitFeedbackRejected e

/-- The coarse loading flag each family shares: `isUploading` for
uploadFile, `isSearching` for searchTopic, `isSending` for sendMessage,
`isLoading` for everything else. -/
def categoryFlag : OpFamily → SessionState → Bool
  | .uploadFile, s => s.isUploading
  | .searchTopic, s => s.isSearching
  | .sendMessage, s => s.isSending
  | _, s => s.isLoading

/-- C7: reducing the rejected event of any operation family clears
that family's category flag and overwrites the single `error` slot —
whatever error any category stored before — with the payload the thunk
built: the backend's structured payload when present, else the
transport error text. -/
theorem rejected_clears_flag_and_overwrites_error
    (fam : OpFamily) (data? : Option String) (msg : String)
    (s : SessionState) :
    categoryFlag fam
        (generalReducer s (rejectedEvent fam (mkRejectPayload data? msg))) =
      false ∧
    (generalReducer s
          (rejectedEvent fam (mkRejectPayload data? msg))).error =
      some (mkRejectPayload data? msg) := by
  cases fam <;> exact ⟨rfl, rfl⟩

/-- C8 counterexample: a `submitFeedback` lifecycle event does change
Session State — the pending event flips the shared `isLoading` flag, so
reducing it on the initial state does not return the initial state. -/
theorem submitFeedback_pending_changes_state :
    generalReducer initialState .submitFeedbackPending ≠ initialState := by
  intro h
  have hflag := congrArg SessionState.isLoading h
  simp [generalReducer, initialState] at hflag

/-- C8 (amended): `submitFeedback` lifecycle events leave `messages`
and every other Session State field except the shared `isLoading` flag
and (on rejection) the `error` slot unchanged: pending sets `isLoading`
true, fulfilled sets it false, rejected sets it false and stores the
payload in `error`. -/
theorem submitFeedback_frame (s : SessionState) (p : ErrorPayload) :
    generalReducer s .submitFeedbackPending = { s with isLoading := true } ∧
    generalReducer s .submitFeedbackFulfilled =
      { s with isLoading := false } ∧
    generalReducer s (.submitFeedbackRejected p) =
      { s with isLoading := false, error := some p } :=
  ⟨rfl, rfl, rfl⟩

/-- `toggleDoc` keeps a duplicate-free list duplicate-free. -/
theorem toggleDoc_nodup (l : List String) (d : String) (h : l.Nodup) :
    (toggleDoc l d).Nodup := by
  unfold toggleDoc
  split
  · exact h.erase d
  · rename_i hd
    rw [List.nodup_append]
    exact ⟨h, List.nodup_singleton d,
      fun x hx hx' => hd (by rwa [List.mem_singleton.mp hx'] at hx)⟩

/-- Membership in `jsSetDedup` agrees with membership in the input. -/
theorem mem_jsSetDedup (x : String) (l : List String) :
    x ∈ jsSetDedup l ↔ x ∈ l := by
  induction l using jsSetDedup.induct with
  | case1 => simp [jsSetDedup]
  | case2 a xs ih =>
      simp only [jsSetDedup, List.mem_cons, ih, List.mem_filter,
        decide_eq_true_eq]
      by_cases hxa : x = a <;> simp [hxa]

/-- `jsSetDedup` returns a duplicate-free list. -/
theorem jsSetDedup_nodup (l : List String) : (jsSetDedup l).Nodup := by
  induction l using jsSetDedup.induct with
  | case1 => simp [jsSetDedup]
  | case2 a xs ih =>
      rw [jsSetDedup, List.nodup_cons, mem_jsSetDedup]
      refine ⟨?_, ih⟩
      simp [List.mem_filter]

/-- Round trip of `toggleDoc` on a duplicate-free list, as sets. -/
theorem toggleDoc_toggleDoc_mem (l : List String) (d x : String)
    (h : l.Nodup) : x ∈ toggleDoc (toggleDoc l d) d ↔ x ∈ l := by
  unfold toggleDoc
  by_cases hd : d ∈ l
  · have hne : d ∉ l.erase d := fun hm => (h.mem_erase_iff.mp hm).1 rfl
    rw [if_pos hd, if_neg hne]
    simp only [List.mem_append, h.mem_erase_iff, List.mem_singleton]
    by_cases hxd : x = d
    · simp [hxd, hd]
    · simp [hxd]
  · have hmem : d ∈ l ++ [d] := by simp
    rw [if_neg hd, if_pos hmem, List.erase_append_right _ hd]
    simp

/-- C9: toggling the same document identifier twice in succession
returns `selectedDocuments` to its original set of identifiers, for
every state whose selection list is duplicate-free (which every
reachable state is, by the invariant of C10). -/
theorem toggle_toggle_roundtrip (s : SessionState) (d x : String)
    (h : s.selectedDocuments.Nodup) :
    (x ∈ (generalReducer (generalReducer s (.toggleSelectedDocument d))
        (.toggleSelectedDocument d)).selectedDocuments ↔
      x ∈ s.selectedDocuments) :=
  toggleDoc_toggleDoc_mem s.selectedDocuments d x h

/-- Witness for C9: toggling `doc2` twice on the sample state leaves
membership of `doc2` in the selection unchanged. -/
theorem toggle_toggle_roundtrip_witness :
    ("doc2" ∈ (generalReducer
        (generalReducer sampleState (.toggleSelectedDocument "doc2"))
        (.toggleSelectedDocument "doc2")).selectedDocuments ↔
      "doc2" ∈ sampleState.selectedDocuments) :=
  toggle_toggle_roundtrip sampleState "doc2" "doc2" (by decide)

/-- C10: `selectedDocuments` never holds a duplicate identifier — the
initial state's selection is duplicate-free and every reducer action
preserves duplicate-freedom (`toggleSelectedDocument` appends only
absent identifiers, `setSelectedDocuments` deduplicates its payload,
and every other write of the field assigns the empty list). -/
theorem selectedDocuments_nodup_invariant :
    initialState.selectedDocuments.Nodup ∧
    ∀ (s : SessionState) (a : Action), s.selectedDocuments.Nodup →
      (generalReducer s a).selectedDocuments.Nodup := by
  refine ⟨List.nodup_nil, fun s a h => ?_⟩
  cases a <;>
    simp only [generalReducer] <;>
    first
      | exact h
      | exact List.nodup_nil
      | exact toggleDoc_nodup _ _ h
      | exact jsSetDedup_nodup _
      | (split <;> first | exact h | exact List.nodup_nil)

/-- Witness for C10: the invariant transported along a concrete toggle
on the initial state. -/
theorem selectedDocuments_nodup_invariant_witness :
    (generalReducer initialState
        (.toggleSelectedDocument "doc1")).selectedDocuments.Nodup :=
  selectedDocuments_nodup_invariant.2 initialState
    (.toggleSelectedDocument "doc1") selectedDocuments_nodup_invariant.1

end VisionRAG
